import Mathlib

/-!
Verification of the MTB-subset repository: a converter from two clinical
genomic report JSON schemas ("Ulm" and "Freiburg") to one normalized schema
(`convert_mtb_json_v2.py`), and a completeness validator / table extractor
over the normalized schema (`validate_genomic_json.py`).

The embedding models parsed JSON as the inductive type `JVal` (numbers as
rationals) and Python's fallible operations (`dict.get`, `in`, subscript,
`[0]`, iteration, `len`, truthiness, `str.replace`, `/ 100.0`) as
`Py`-valued functions, where `Py α` is `Option α`: `none` is a raised Python
exception.  Each source function becomes a `Py`-returning Lean function
built from those primitives, following the source line by line.
-/

/-- A fallible Python computation: `none` models a raised exception.  (Same
representation as `Option`; a separate monad is used so that its bind is not
inlined by the compiler.) -/
def Py (α : Type) : Type := Option α

/-- Sequencing of fallible Python steps. -/
@[noinline] def Py.bindImpl {α β : Type} (x : Py α) (f : α → Py β) : Py β :=
  match x with
  | none => none
  | some a => f a

instance : Monad Py where
  pure a := some a
  bind := Py.bindImpl

/-- A parsed JSON value (Python's `json.load` result).  Numbers are modelled
as rationals; objects are association lists in key order (parsed JSON
objects have distinct keys, and every access below is by first match). -/
inductive JVal where
  | null
  | bool (b : Bool)
  | num (q : ℚ)
  | str (s : String)
  | arr (xs : List JVal)
  | obj (fs : List (String × JVal))

/-- Python `v is None`. -/
def JVal.isNull : JVal → Bool
  | .null => true
  | _ => false

/-- Python `str(v)` used only inside f-strings.  Faithful on strings (the
case the source data exercises); container renderings are abbreviated since
no property below inspects them. -/
def pyStrOf : JVal → String
  | .str s => s
  | .null => "None"
  | .bool true => "True"
  | .bool false => "False"
  | .num q => toString q
  | .arr _ => "<list>"
  | .obj _ => "<dict>"

/-- Python `d.get(k, default)`: requires `d` to be a dict, else
`AttributeError`.  A key stored with value `None` yields `None`, not the
default. -/
def pyGet (j : JVal) (k : String) (d : JVal) : Py JVal :=
  match j with
  | .obj fs => some ((fs.lookup k).getD d)
  | _ => none

/-- Python single-argument `d.get(k)` (default `None`). -/
def pyGetN (j : JVal) (k : String) : Py JVal :=
  pyGet j k .null

/-- Does the character list `sub` occur inside the second list (Python
`sub in s` for strings)? -/
def charsContain (sub : List Char) : List Char → Bool
  | [] => sub.isEmpty
  | c :: rest => sub.isPrefixOf (c :: rest) || charsContain sub rest

/-- Python `k in j` for a string `k`: key test on dicts, membership on
lists, substring on strings; `TypeError` on non-containers. -/
def pyIn (k : String) (j : JVal) : Py Bool :=
  match j with
  | .obj fs => some (fs.lookup k).isSome
  | .arr xs => some (xs.any fun x => match x with | .str s => s == k | _ => false)
  | .str s => some (charsContain k.data s.data)
  | _ => none

/-- Python subscript `j[k]` with a string key: defined on dicts with the key
present (`KeyError` otherwise); `TypeError` on lists and strings. -/
def pySubscript (j : JVal) (k : String) : Py JVal :=
  match j with
  | .obj fs => fs.lookup k
  | _ => none

/-- Python `j[0]`: head of a non-empty list (`IndexError` on an empty one),
first character of a non-empty string; `TypeError`/`KeyError` otherwise. -/
def pyIndex0 : JVal → Py JVal
  | .arr (x :: _) => some x
  | .str s =>
    match s.data with
    | [] => none
    | c :: _ => some (.str (String.mk [c]))
  | _ => none

/-- Python truthiness (`if v:`). -/
def pyTruthy : JVal → Bool
  | .null => false
  | .bool b => b
  | .num q => q != 0
  | .str s => !s.isEmpty
  | .arr xs => !xs.isEmpty
  | .obj fs => !fs.isEmpty

/-- Python `for x in j`: the elements of a list, the keys of a dict, the
characters of a string; `TypeError` on non-iterables. -/
def pyIter : JVal → Py (List JVal)
  | .arr xs => some xs
  | .obj fs => some (fs.map fun p => .str p.1)
  | .str s => some (s.data.map fun c => .str (String.mk [c]))
  | _ => none

/-- Python `len(j)`; `TypeError` on scalars. -/
def pyLen : JVal → Py Nat
  | .arr xs => some xs.length
  | .obj fs => some fs.length
  | .str s => some s.length
  | _ => none

/-- A Python `for` loop over a list whose body appends one result per
element, stopping with an exception as soon as the body raises. -/
def pyMap {α β : Type} (f : α → Py β) : List α → Py (List β)
  | [] => pure []
  | x :: xs => do
    let y ← f x
    let ys ← pyMap f xs
    return y :: ys

/-- Left-to-right non-overlapping replacement of the pattern `pat` by `rep`
in a character list (Python `str.replace` for a non-empty pattern; the
source only ever replaces the non-empty patterns `"HGNC:"` and `"%20"`).
Indexed by fuel so the recursion is structural; every step consumes at
least one character, so with the list's length as fuel the `0` fallback is
never reached. -/
def replaceChars (pat rep : List Char) : Nat → List Char → List Char
  | _, [] => []
  | 0, s => s
  | fuel + 1, c :: rest =>
    if pat.isPrefixOf (c :: rest) then
      rep ++ replaceChars pat rep fuel (rest.drop (pat.length - 1))
    else
      c :: replaceChars pat rep fuel rest

/-- Python `s.replace(pat, rep)` on strings. -/
def pyReplace (s pat rep : String) : String :=
  String.mk (replaceChars pat.data rep.data s.data.length s.data)

/-- Python `v.replace(pat, rep)` on a JSON value: requires a string, else
`AttributeError`. -/
def pyReplaceField (j : JVal) (pat rep : String) : Py JVal :=
  match j with
  | .str s => some (.str (pyReplace s pat rep))
  | _ => none

/-- Python `v / 100.0`: defined on numbers (and booleans, which Python
coerces); `TypeError` otherwise. -/
def pyDiv100 : JVal → Py JVal
  | .num q => some (.num (q / 100))
  | .bool b => some (.num (if b then (1 : ℚ) / 100 else 0))
  | _ => none

/-- Python string extraction: `', '.join` requires each element to be a
string. -/
def JVal.asStr : JVal → Py String
  | .str s => some s
  | _ => none

/-- The recurring source idiom `d.get(k, [{}])[0]`: first element of the
list stored at `k`, an empty dict when `k` is absent, an exception when the
stored list is empty. -/
def firstOrEmpty (j : JVal) (k : String) : Py JVal := do
  let v ← pyGet j k (.arr [.obj []])
  pyIndex0 v

/-- The expression `diagnosis.get('icd10', {}).get('display', '')`, shared
by the patient-info blocks of both mappers. -/
def tumorTypeOf (diagnosis : JVal) : Py JVal := do
  let icd10 ← pyGet diagnosis "icd10" (.obj [])
  pyGet icd10 "display" (.str "")

/-- The conditional expression `diagnosis.get('statusHistory', [{}])[0]
.get('status', '') if diagnosis.get('statusHistory') else ''`, shared by
the patient-info blocks of both mappers. -/
def clinicalStageOf (diagnosis : JVal) : Py JVal := do
  let shCond ← pyGetN diagnosis "statusHistory"
  if pyTruthy shCond then do
    let shl ← pyGet diagnosis "statusHistory" (.arr [.obj []])
    let sh0 ← pyIndex0 shl
    pyGet sh0 "status" (.str "")
  else pure (.str "")

/-- The Freiburg guard `xs[0] if xs else {}` (lines 140 and 142). -/
def firstIfTruthy (xs : JVal) : Py JVal :=
  if pyTruthy xs then pyIndex0 xs else pure (.obj [])

/-- `detect_format` (convert_mtb_json_v2.py lines 11-18). -/
def detect_format (data : JVal) : Py String := do
  let c1 ← pyIn "data" data
  if c1 then
    let inner ← pyGet data "data" (.obj [])
    let c2 ← pyIn "ngsReports" inner
    if c2 then
      return "freiburg"
    else
      let c3 ← pyIn "ngsReports" data
      if c3 then return "ulm" else return "unknown"
  else
    let c3 ← pyIn "ngsReports" data
    if c3 then return "ulm" else return "unknown"

/-- Ulm simple-variant mapping (loop body, lines 75-93). -/
def ulmVariant (variant : JVal) : Py JVal := do
  let gene ← pyGet variant "gene" (.obj [])
  let hgnc ← pyGet gene "hgncId" (.str "")
  let gene_id ← pyReplaceField hgnc "HGNC:" ""
  let chrv ← pyGet variant "chromosome" (.str "")
  let startEnd ← pyGet variant "startEnd" (.obj [])
  let pos ← pyGet startEnd "start" (.str "")
  let refv ← pyGet variant "refAllele" (.str "")
  let altv ← pyGet variant "altAllele" (.str "")
  let aaObj ← pyGet variant "aminoAcidChange" (.obj [])
  let aa ← pyGet aaObj "code" (.str "")
  let dnaObj ← pyGet variant "dnaChange" (.obj [])
  let dna ← pyGet dnaObj "code" (.str "")
  let af ← pyGet variant "allelicFrequency" (.num 0)
  let vaf ← pyDiv100 af
  let depth ← pyGet variant "readDepth" (.str "")
  let interp ← pyGet variant "interpretation" (.obj [])
  let csig ← pyGet interp "code" (.str "")
  let dbsnp ← pyGet variant "dbSNPId" (.str "")
  let vid ← pyGet variant "id" (.str "")
  return .obj [
    ("gene", gene_id),
    ("chr", .str ("chr" ++ pyStrOf chrv)),
    ("pos", pos),
    ("ref", refv),
    ("alt", altv),
    ("consequence", .str "Not specified"),
    ("aa_change", aa),
    ("dna_change", dna),
    ("vaf", vaf),
    ("depth", depth),
    ("transcript_id", .str "Not specified"),
    ("clinical_sig", csig),
    ("dbsnp_id", dbsnp),
    ("variant_id", vid)]

/-- Ulm copy-number-variant mapping (loop body, lines 96-107).  Both the
`start` and `end` output fields read the source's `startRange` dict. -/
def ulmCnv (cnv : JVal) : Py JVal := do
  let gene ← pyGet cnv "gene" (.obj [])
  let hgnc ← pyGet gene "hgncId" (.str "")
  let gene_id ← pyReplaceField hgnc "HGNC:" ""
  let chrv ← pyGet cnv "chromosome" (.str "")
  let sr ← pyGet cnv "startRange" (.obj [])
  let startv ← pyGet sr "start" (.str "")
  let endv ← pyGet sr "end" (.str "")
  let cn ← pyGet cnv "copyNumber" (.str "")
  let ty ← pyGet cnv "type" (.str "")
  return .obj [
    ("gene", gene_id),
    ("chr", .str ("chr" ++ pyStrOf chrv)),
    ("start", startv),
    ("end", endv),
    ("copy_number", cn),
    ("status", ty),
    ("confidence", .str "Not specified"),
    ("method", .str "Not specified")]

/-- Ulm RNA-fusion mapping (loop body, lines 110-118). -/
def ulmFusion (fusion : JVal) : Py JVal := do
  let p5 ← pyGet fusion "fusionPartner5prime" (.obj [])
  let g5 ← pyGet p5 "gene" (.obj [])
  let h5 ← pyGet g5 "hgncId" (.str "")
  let gene5 ← pyReplaceField h5 "HGNC:" ""
  let p3 ← pyGet fusion "fusionPartner3prime" (.obj [])
  let g3 ← pyGet p3 "gene" (.obj [])
  let h3 ← pyGet g3 "hgncId" (.str "")
  let gene3 ← pyReplaceField h3 "HGNC:" ""
  return .obj [
    ("gene_5prime", gene5),
    ("gene_3prime", gene3),
    ("supporting_reads", .str "Not specified"),
    ("frame_status", .str "Not specified"),
    ("fusion_type", .str "Not specified")]

/-- The expression
`rec.get('levelOfEvidence', {}).get('grading', {}).get('code', '')`
(line 126): the evidence grading shared by every medication of one
recommendation. -/
def ulmEvidence (recm : JVal) : Py JVal := do
  let loe ← pyGet recm "levelOfEvidence" (.obj [])
  let grading ← pyGet loe "grading" (.obj [])
  pyGet grading "code" (.str "")

/-- Ulm actionable-mutation record for one (recommendation, medication)
pair (inner loop body, lines 122-130). -/
def ulmActionable (recm med : JVal) : Py JVal := do
  let sv ← pyGet recm "supportingVariants" (.arr [])
  let therapy ← pyGet med "display" (.str "")
  let ev ← ulmEvidence recm
  let prio ← pyGet recm "priority" (.str "")
  let issued ← pyGet recm "issuedOn" (.str "")
  return .obj [
    ("variant_ids", sv),
    ("therapy", therapy),
    ("evidence_level", ev),
    ("priority", prio),
    ("issued_date", issued)]

/-- One Ulm recommendation expanded over its `medication` list (the
`for med in rec.get('medication', [])` loop, lines 121-130). -/
def ulmRecActionables (recm : JVal) : Py (List JVal) := do
  let medsV ← pyGet recm "medication" (.arr [])
  let meds ← pyIter medsV
  pyMap (ulmActionable recm) meds

/-- `convert_ulm_format` (convert_mtb_json_v2.py lines 20-132).  The output
dictionary literal is evaluated field by field, then the four loops append
to `snv_indel`, `cnv`, `fusion_sv` and `actionable_mutations`; appending in
two nested loops is the concatenation of the per-recommendation lists. -/
def convert_ulm_format (data : JVal) : Py JVal := do
  let episode ← pyGet data "episode" (.obj [])
  let patient_id ← pyGet episode "patient" (.str "unknown")
  let specimen ← firstOrEmpty data "specimens"
  let diagnosis ← firstOrEmpty data "diagnoses"
  let ngs_report ← firstOrEmpty data "ngsReports"
  let metadata ← firstOrEmpty ngs_report "metadata"
  let sample_id ← pyGet specimen "id" (.str "")
  let sample_type ← pyGet specimen "type" (.str "")
  let tumor_type ← tumorTypeOf diagnosis
  let collection ← pyGet specimen "collection" (.obj [])
  let collection_date ← pyGet collection "date" (.str "")
  let clinical_stage ← clinicalStageOf diagnosis
  let platform ← pyGet metadata "sequencer" (.str "")
  let kit_manufacturer ← pyGet metadata "kitManufacturer" (.str "")
  let kit_type ← pyGet metadata "kitType" (.str "")
  let gene_panel ← pyGet ngs_report "sequencingType" (.str "")
  let pipelineRaw ← pyGet metadata "pipeline" (.str "")
  let software ← pyReplaceField pipelineRaw "%20" " "
  let reference_genome ← pyGet metadata "referenceGenome" (.str "")
  let tmb ← pyGet ngs_report "tmb" .null
  let variantsV ← pyGet ngs_report "simpleVariants" (.arr [])
  let variants ← pyIter variantsV
  let snv ← pyMap ulmVariant variants
  let cnvsV ← pyGet ngs_report "copyNumberVariants" (.arr [])
  let cnvs ← pyIter cnvsV
  let cnvRows ← pyMap ulmCnv cnvs
  let fusionsV ← pyGet ngs_report "rnaFusions" (.arr [])
  let fusions ← pyIter fusionsV
  let fusRows ← pyMap ulmFusion fusions
  let recsV ← pyGet data "recommendations" (.arr [])
  let recs ← pyIter recsV
  let actLists ← pyMap ulmRecActionables recs
  return .obj [
    ("patient_info", .obj [
      ("patient_id", patient_id),
      ("sample_id", sample_id),
      ("sample_type", sample_type),
      ("tumor_type", tumor_type),
      ("collection_date", collection_date),
      ("clinical_stage", clinical_stage)]),
    ("sequencing", .obj [
      ("platform", platform),
      ("kit_manufacturer", kit_manufacturer),
      ("kit_type", kit_type),
      ("gene_panel", gene_panel),
      ("coverage_depth", .str "Not specified")]),
    ("pipeline", .obj [
      ("software", software),
      ("version", .str ""),
      ("reference_genome", reference_genome),
      ("variant_caller", .str "Not specified"),
      ("filter_criteria", .str "Not specified")]),
    ("qc_metrics", .obj [
      ("total_reads", .str "Not specified"),
      ("mapped_reads_pct", .str "Not specified"),
      ("mean_coverage", .str "Not specified"),
      ("targets_min_depth_pct", .str "Not specified"),
      ("tumor_purity", .str "Not specified"),
      ("qc_status", .str "Not specified")]),
    ("snv_indel", .arr snv),
    ("cnv", .arr cnvRows),
    ("fusion_sv", .arr fusRows),
    ("additional_biomarkers", .obj [
      ("tmb", tmb),
      ("tmb_unit", .str "mutations/Mb"),
      ("msi_status", .str "Not specified")]),
    ("clinical_interpretation", .obj [
      ("actionable_mutations", .arr actLists.flatten),
      ("resistance_mutations", .arr []),
      ("vus", .arr [])])]

/-- The conditional expression
`variant.get('dnaChange', {}).get('code', '') if 'dnaChange' in variant
else ''` of the Freiburg variant mapper (line 255). -/
def frbDnaChange (variant : JVal) : Py JVal := do
  let hasDna ← pyIn "dnaChange" variant
  if hasDna then do
    let dnaObj ← pyGet variant "dnaChange" (.obj [])
    pyGet dnaObj "code" (.str "")
  else pure (.str "")

/-- Freiburg simple-variant mapping (loop body, lines 243-263).  Unlike the
Ulm mapper: the gene symbol and full name are surfaced, the chromosome is
copied without a `chr` prefix, and `allelicFrequency` is stored unchanged
(no division by 100). -/
def frbVariant (variant : JVal) : Py JVal := do
  let gene ← pyGet variant "gene" (.obj [])
  let hgnc ← pyGet gene "hgncId" (.str "")
  let gene_id ← pyReplaceField hgnc "HGNC:" ""
  let symbol ← pyGet gene "symbol" (.str "")
  let gname ← pyGet gene "name" (.str "")
  let chrv ← pyGet variant "chromosome" (.str "")
  let startEnd ← pyGet variant "startEnd" (.obj [])
  let pos ← pyGet startEnd "start" (.str "")
  let refv ← pyGet variant "refAllele" (.str "")
  let altv ← pyGet variant "altAllele" (.str "")
  let dna ← frbDnaChange variant
  let vaf ← pyGet variant "allelicFrequency" (.num 0)
  let depth ← pyGet variant "readDepth" (.str "")
  let interp ← pyGet variant "interpretation" (.obj [])
  let csig ← pyGet interp "code" (.str "")
  let dbsnp ← pyGet variant "dbSNPId" (.str "")
  let vid ← pyGet variant "id" (.str "")
  return .obj [
    ("gene", gene_id),
    ("gene_symbol", symbol),
    ("gene_name", gname),
    ("chr", chrv),
    ("pos", pos),
    ("ref", refv),
    ("alt", altv),
    ("consequence", .str "Not specified"),
    ("aa_change", .str "Not specified"),
    ("dna_change", dna),
    ("vaf", vaf),
    ("depth", depth),
    ("transcript_id", .str "Not specified"),
    ("clinical_sig", csig),
    ("dbsnp_id", dbsnp),
    ("variant_id", vid)]

/-- Freiburg copy-number-variant mapping (loop body, lines 266-281).  Gene
symbols of all reported affected genes are comma-joined into one string;
the output `end` field reads `endRange.get('start')` exactly as the source
does. -/
def frbCnv (cnv : JVal) : Py JVal := do
  let agV ← pyGet cnv "reportedAffectedGenes" (.arr [])
  let ag ← pyIter agV
  let symbols ← pyMap (fun g => do
    let s ← pyGet g "symbol" (.str "")
    s.asStr) ag
  let chrv ← pyGet cnv "chromosome" (.str "")
  let sr ← pyGet cnv "startRange" (.obj [])
  let startv ← pyGet sr "start" (.str "")
  let er ← pyGet cnv "endRange" (.obj [])
  let endv ← pyGet er "start" (.str "")
  let tcn ← pyGet cnv "totalCopyNumber" (.str "")
  let ty ← pyGet cnv "type" (.str "")
  let vid ← pyGet cnv "id" (.str "")
  return .obj [
    ("genes", .str (String.intercalate ", " symbols)),
    ("chr", chrv),
    ("start", startv),
    ("end", endv),
    ("copy_number", tcn),
    ("status", ty),
    ("confidence", .str "Not specified"),
    ("method", .str "Not specified"),
    ("variant_id", vid)]

/-- Freiburg RNA-fusion mapping (loop body, lines 284-293). -/
def frbFusion (fusion : JVal) : Py JVal := do
  let p5 ← pyGet fusion "fusionPartner5prime" (.obj [])
  let g5 ← pyGet p5 "gene" (.obj [])
  let s5 ← pyGet g5 "symbol" (.str "")
  let p3 ← pyGet fusion "fusionPartner3prime" (.obj [])
  let g3 ← pyGet p3 "gene" (.obj [])
  let s3 ← pyGet g3 "symbol" (.str "")
  let sreads ← pyGet fusion "numSplitReads" (.str "Not specified")
  let vid ← pyGet fusion "id" (.str "")
  return .obj [
    ("gene_5prime", s5),
    ("gene_3prime", s3),
    ("supporting_reads", sreads),
    ("frame_status", .str "Not specified"),
    ("fusion_type", .str "Not specified"),
    ("variant_id", vid)]

/-- Freiburg actionable-mutation record for one (recommendation,
medication) pair (inner loop body, lines 296-305). -/
def frbActionable (recm med : JVal) : Py JVal := do
  let therapy ← pyGet med "display" (.str "")
  let prio ← pyGet recm "priority" (.str "")
  let issued ← pyGet recm "issuedOn" (.str "")
  let ngsRef ← pyGet recm "ngsReport" (.str "")
  return .obj [
    ("therapy", therapy),
    ("priority", prio),
    ("issued_date", issued),
    ("ngs_report", ngsRef)]

/-- One Freiburg recommendation expanded over its `medication` list
(lines 296-305). -/
def frbRecActionables (recm : JVal) : Py (List JVal) := do
  let medsV ← pyGet recm "medication" (.arr [])
  let meds ← pyIter medsV
  pyMap (frbActionable recm) meds

/-- The fully-sentinel Normalized Document returned by
`convert_freiburg_format` when there are no NGS reports (lines 146-190),
as a function of the three patient-level values that are still read from
the source. -/
def frbNoNgsDoc (patient_id tumor_type clinical_stage : JVal) : JVal :=
  .obj [
    ("patient_info", .obj [
      ("patient_id", patient_id),
      ("sample_id", .str ""),
      ("sample_type", .str ""),
      ("tumor_type", tumor_type),
      ("collection_date", .str ""),
      ("clinical_stage", clinical_stage)]),
    ("sequencing", .obj [
      ("platform", .str "No NGS data"),
      ("kit_manufacturer", .str "No NGS data"),
      ("kit_type", .str "No NGS data"),
      ("gene_panel", .str "No NGS data"),
      ("coverage_depth", .str "No NGS data")]),
    ("pipeline", .obj [
      ("software", .str "No NGS data"),
      ("version", .str "No NGS data"),
      ("reference_genome", .str "No NGS data"),
      ("variant_caller", .str "No NGS data"),
      ("filter_criteria", .str "No NGS data")]),
    ("qc_metrics", .obj [
      ("total_reads", .str "No NGS data"),
      ("mapped_reads_pct", .str "No NGS data"),
      ("mean_coverage", .str "No NGS data"),
      ("targets_min_depth_pct", .str "No NGS data"),
      ("tumor_purity", .str "No NGS data"),
      ("qc_status", .str "No NGS data")]),
    ("snv_indel", .arr []),
    ("cnv", .arr []),
    ("fusion_sv", .arr []),
    ("additional_biomarkers", .obj [
      ("tmb", .null),
      ("msi_status", .str "No NGS data")]),
    ("clinical_interpretation", .obj [
      ("actionable_mutations", .arr []),
      ("resistance_mutations", .arr []),
      ("vus", .arr [])])]

/-- The no-NGS-reports branch of `convert_freiburg_format` (lines
146-190): the sentinel document, with `tumor_type` and `clinical_stage`
still read from the diagnosis. -/
def frbNoNgs (patient_id diagnosis : JVal) : Py JVal := do
  let tumor_type ← tumorTypeOf diagnosis
  let clinical_stage ← clinicalStageOf diagnosis
  return frbNoNgsDoc patient_id tumor_type clinical_stage

/-- The main branch of `convert_freiburg_format` (lines 192-307), entered
when `ngsReports` is truthy. -/
def frbWithNgs (inner_data patient_id specimen diagnosis ngs_reports : JVal) : Py JVal := do
  let ngs_report ← pyIndex0 ngs_reports
  let metadata ← firstOrEmpty ngs_report "metadata"
  let sample_id ← pyGet specimen "id" (.str "")
  let sample_type ← pyGet specimen "type" (.str "")
  let tumor_type ← tumorTypeOf diagnosis
  let collection ← pyGet specimen "collection" (.obj [])
  let collection_date ← pyGet collection "date" (.str "")
  let clinical_stage ← clinicalStageOf diagnosis
  let platform ← pyGet metadata "sequencer" (.str "")
  let kit_manufacturer ← pyGet metadata "kitManufacturer" (.str "")
  let kit_type ← pyGet metadata "kitType" (.str "")
  let gene_panel ← pyGet ngs_report "sequencingType" (.str "")
  let software ← pyGet metadata "pipeline" (.str "")
  let reference_genome ← pyGet metadata "referenceGenome" (.str "")
  let tcc ← pyGet ngs_report "tumorCellContent" (.obj [])
  let tumor_purity ← pyGet tcc "value" (.str "Not specified")
  let tmb ← pyGet ngs_report "tmb" .null
  let msi ← pyGet ngs_report "msi" (.str "Not specified")
  let brca ← pyGet ngs_report "brcaness" .null
  let variantsV ← pyGet ngs_report "simpleVariants" (.arr [])
  let variants ← pyIter variantsV
  let snv ← pyMap frbVariant variants
  let cnvsV ← pyGet ngs_report "copyNumberVariants" (.arr [])
  let cnvs ← pyIter cnvsV
  let cnvRows ← pyMap frbCnv cnvs
  let fusionsV ← pyGet ngs_report "rnaFusions" (.arr [])
  let fusions ← pyIter fusionsV
  let fusRows ← pyMap frbFusion fusions
  let recsV ← pyGet inner_data "recommendations" (.arr [])
  let recs ← pyIter recsV
  let actLists ← pyMap frbRecActionables recs
  return .obj [
    ("patient_info", .obj [
      ("patient_id", patient_id),
      ("sample_id", sample_id),
      ("sample_type", sample_type),
      ("tumor_type", tumor_type),
      ("collection_date", collection_date),
      ("clinical_stage", clinical_stage)]),
    ("sequencing", .obj [
      ("platform", platform),
      ("kit_manufacturer", kit_manufacturer),
      ("kit_type", kit_type),
      ("gene_panel", gene_panel),
      ("coverage_depth", .str "Not specified")]),
    ("pipeline", .obj [
      ("software", software),
      ("version", .str ""),
      ("reference_genome", reference_genome),
      ("variant_caller", .str "Not specified"),
      ("filter_criteria", .str "Not specified")]),
    ("qc_metrics", .obj [
      ("total_reads", .str "Not specified"),
      ("mapped_reads_pct", .str "Not specified"),
      ("mean_coverage", .str "Not specified"),
      ("targets_min_depth_pct", .str "Not specified"),
      ("tumor_purity", tumor_purity),
      ("qc_status", .str "Not specified")]),
    ("snv_indel", .arr snv),
    ("cnv", .arr cnvRows),
    ("fusion_sv", .arr fusRows),
    ("additional_biomarkers", .obj [
      ("tmb", tmb),
      ("tmb_unit", .str "mutations/Mb"),
      ("msi_status", msi),
      ("brcaness", brca)]),
    ("clinical_interpretation", .obj [
      ("actionable_mutations", .arr actLists.flatten),
      ("resistance_mutations", .arr []),
      ("vus", .arr [])])]

/-- `convert_freiburg_format` (convert_mtb_json_v2.py lines 134-307).  The
`data` envelope is unwrapped first; an untruthy `ngsReports` value
short-circuits to the sentinel document branch. -/
def convert_freiburg_format (data : JVal) : Py JVal := do
  let inner_data ← pyGet data "data" (.obj [])
  let patientObj ← pyGet inner_data "patient" (.obj [])
  let patient_id ← pyGet patientObj "id" (.str "unknown")
  let specimens ← pyGet inner_data "specimens" (.arr [.obj []])
  let specimen ← firstIfTruthy specimens
  let diagnoses ← pyGet inner_data "diagnoses" (.arr [.obj []])
  let diagnosis ← firstIfTruthy diagnoses
  let ngs_reports ← pyGet inner_data "ngsReports" (.arr [])
  if !pyTruthy ngs_reports then
    frbNoNgs patient_id diagnosis
  else
    frbWithNgs inner_data patient_id specimen diagnosis ngs_reports

/-- `GenomicDataValidator.REQUIRED_FIELDS` (validate_genomic_json.py lines
18-35), in declaration order. -/
def REQUIRED_FIELDS : List (String × List String) := [
  ("patient_info", ["patient_id", "sample_id", "sample_type",
    "tumor_type", "collection_date", "clinical_stage"]),
  ("sequencing", ["platform", "kit_manufacturer", "kit_type",
    "gene_panel", "coverage_depth"]),
  ("pipeline", ["software", "version", "reference_genome",
    "variant_caller", "filter_criteria"]),
  ("qc_metrics", ["total_reads", "mapped_reads_pct", "mean_coverage",
    "targets_min_depth_pct", "tumor_purity", "qc_status"])]

/-- The validator's per-field test (line 71):
`field in section_data and section_data[field] is not None`. -/
def fieldPresent (sectionData : JVal) (field : String) : Py Bool := do
  let isIn ← pyIn field sectionData
  if isIn then
    let v ← pySubscript sectionData field
    return !v.isNull
  else
    return false

/-- The `missing` list accumulated by the validator's field loop (lines
70-77), in checklist order. -/
def missingFields (sectionData : JVal) : List String → Py (List String)
  | [] => pure []
  | f :: rest => do
    let p ← fieldPresent sectionData f
    let m ← missingFields sectionData rest
    return if p then m else f :: m

/-- One iteration of the validator's section loop (lines 65-83): fetch the
section (an empty dict when absent), collect its missing fields, and record
`complete` as emptiness of that list. -/
def validateSection (data : JVal) (sec : String) (fields : List String) :
    Py (Bool × List String) := do
  let sectionData ← pyGet data sec (.obj [])
  let missing ← missingFields sectionData fields
  return (missing.isEmpty, missing)

/-- The genomic-alterations availability printout (lines 86-91): it returns
nothing but can raise (`len` of a truthy non-sized value), so it is kept as
a computation of the printed counts. -/
def genomicCounts (data : JVal) : Py (List Nat) :=
  pyMap (fun dt => do
    let isIn ← pyIn dt data
    let available ←
      if isIn then do
        let v ← pySubscript data dt
        pure (pyTruthy v)
      else pure false
    if available then do
      let v ← pyGet data dt (.arr [])
      pyLen v
    else pure 0) ["snv_indel", "cnv", "fusion_sv"]

/-- `GenomicDataValidator.validate` (lines 57-97): the per-section results
in section order, and the overall flag.  The source accumulates `all_valid`
by clearing it on every missing field, which equals the conjunction of the
per-section `complete` flags. -/
def validate (data : JVal) : Py (List (String × Bool × List String) × Bool) := do
  let results ← pyMap (fun sf => do
    let r ← validateSection data sf.1 sf.2
    return (sf.1, r)) REQUIRED_FIELDS
  let _counts ← genomicCounts data
  return (results, results.all fun r => r.2.1)

/-- The validator's `patient_id` (constructor, line 46):
`data.get('patient_info', {}).get('patient_id', 'unknown')`. -/
def validatorPatientId (data : JVal) : Py JVal := do
  let info ← pyGet data "patient_info" (.obj [])
  pyGet info "patient_id" (.str "unknown")

/-- `GenomicDataValidator.extract_patient_info` (lines 99-124): the single
row of the patient-info table, as the column/value list of the one-row
DataFrame. -/
def extract_patient_info (data : JVal) : Py (List (String × JVal)) := do
  let info ← pyGet data "patient_info" (.obj [])
  let seq ← pyGet data "sequencing" (.obj [])
  let pipe ← pyGet data "pipeline" (.obj [])
  let qc ← pyGet data "qc_metrics" (.obj [])
  let patient_id ← pyGetN info "patient_id"
  let sample_id ← pyGetN info "sample_id"
  let sample_type ← pyGetN info "sample_type"
  let tumor_type ← pyGetN info "tumor_type"
  let collection_date ← pyGetN info "collection_date"
  let clinical_stage ← pyGetN info "clinical_stage"
  let platform ← pyGetN seq "platform"
  let kit_type ← pyGetN seq "kit_type"
  let kit_manufacturer ← pyGetN seq "kit_manufacturer"
  let gene_panel ← pyGetN seq "gene_panel"
  let coverage_depth ← pyGetN seq "coverage_depth"
  let software ← pyGetN pipe "software"
  let version ← pyGetN pipe "version"
  let reference_genome ← pyGetN pipe "reference_genome"
  let mean_coverage ← pyGetN qc "mean_coverage"
  let tumor_purity ← pyGetN qc "tumor_purity"
  let qc_status ← pyGetN qc "qc_status"
  return [
    ("patient_id", patient_id),
    ("sample_id", sample_id),
    ("sample_type", sample_type),
    ("tumor_type", tumor_type),
    ("collection_date", collection_date),
    ("clinical_stage", clinical_stage),
    ("platform", platform),
    ("kit_type", kit_type),
    ("kit_manufacturer", kit_manufacturer),
    ("gene_panel", gene_panel),
    ("coverage_depth", coverage_depth),
    ("pipeline", software),
    ("version", version),
    ("reference_genome", reference_genome),
    ("mean_coverage", mean_coverage),
    ("tumor_purity", tumor_purity),
    ("qc_status", qc_status)]

/-- `GenomicDataValidator.extract_cnv` (lines 136-144): the rows of the CNV
table.  An untruthy `cnv` value yields an empty table; otherwise each CNV
record (a dict, as the mappers produce) becomes one row with the document's
`patient_id` inserted as the leading column. -/
def extract_cnv (data : JVal) : Py (List (List (String × JVal))) := do
  let pid ← validatorPatientId data
  let cnv_data ← pyGet data "cnv" (.arr [])
  if !pyTruthy cnv_data then
    return []
  else
    let rows ← pyIter cnv_data
    let rowFields ← pyMap (fun r =>
      match r with
      | JVal.obj fs => (some fs : Py (List (String × JVal)))
      | _ => none) rows
    return rowFields.map fun fs => ("patient_id", pid) :: fs

/-- The CNV side of `process_multiple_files` (lines 211-272): per input
document, extract its CNV table; keep the non-empty tables in input order;
write `combined_cnv.tsv` (the inner value) only when at least one table was
non-empty, containing their concatenation. -/
def combined_cnv (docs : List JVal) : Py (Option (List (List (String × JVal)))) := do
  let tables ← pyMap extract_cnv docs
  let nonempty := tables.filter fun t => !t.isEmpty
  return if nonempty.isEmpty then none else some nonempty.flatten

/-- The patient-info side of `process_multiple_files` (lines 224, 251-253):
every document contributes exactly one row, and the combined table is always
written. -/
def combined_patient_info (docs : List JVal) : Py (List (List (String × JVal))) :=
  pyMap extract_patient_info docs

/-- Pure observer for stating properties: the value stored under a key of a
JSON object. -/
def getField (j : JVal) (k : String) : Option JVal :=
  match j with
  | .obj fs => fs.lookup k
  | _ => none

/-- Pure observer: follow a path of keys through nested objects. -/
def getPath (j : JVal) : List String → Option JVal
  | [] => some j
  | k :: ks =>
    match getField j k with
    | some v => getPath v ks
    | none => none

/-- Pure observer: is `k` a key of the object `j`? -/
def hasKey (j : JVal) (k : String) : Bool :=
  (getField j k).isSome

/-- The sections of the normalized target schema, in output order. -/
def NORMALIZED_SECTIONS : List String :=
  ["patient_info", "sequencing", "pipeline", "qc_metrics", "snv_indel",
   "cnv", "fusion_sv", "additional_biomarkers", "clinical_interpretation"]

/-- Key-presence invariant of a Normalized Document: every section name is
a key, and within the four required sections every checklist field is a
key. -/
def requiredKeysPresent (doc : JVal) : Bool :=
  (NORMALIZED_SECTIONS.all fun s => hasKey doc s) &&
  (REQUIRED_FIELDS.all fun sf =>
    match getField doc sf.1 with
    | some sec => sf.2.all fun f => hasKey sec f
    | none => false)

/-- The spec's detection rule as worded in §4.1, for comparison with the
source's `detect_format`: "freiburg" when the document has a top-level
`data` object containing an `ngsReports` key, else "ulm" when it has a
top-level `ngsReports` key, else "unknown". -/
def detectSpecRule (fs : List (String × JVal)) : String :=
  if (match fs.lookup "data" with
      | some (.obj ds) => (ds.lookup "ngsReports").isSome
      | _ => false) then "freiburg"
  else if (fs.lookup "ngsReports").isSome then "ulm"
  else "unknown"

/-- Sample Ulm document with two specimens, for the C9 witness. -/
def ulmTwoSpecimens : JVal :=
  .obj [("ngsReports", .arr [.obj []]),
        ("specimens", .arr [.obj [("id", .str "S1")], .obj [("id", .str "S2")]])]

/-- The spec's gene-identifier rule, as worded: strip the fixed literal
"HGNC:" from the front of the identifier when it starts with it, leaving
the string otherwise unchanged. -/
def specStripHgnc (s : String) : String :=
  if "HGNC:".data.isPrefixOf s.data then String.mk (s.data.drop "HGNC:".data.length)
  else s

/-- A concrete Ulm recommendation with two medications, for the C6
witness. -/
def ulmTwoMedRec : JVal :=
  .obj [("medication", .arr [.obj [("display", .str "DrugA")],
                             .obj [("display", .str "DrugB")]]),
        ("priority", .str "1"),
        ("issuedOn", .str "2020-01-01"),
        ("levelOfEvidence", .obj [("grading", .obj [("code", .str "m1A")])])]

/-- The first actionable record the C6 witness recommendation produces. -/
def ulmTwoMedRecOutA : JVal :=
  .obj [("variant_ids", .arr []), ("therapy", .str "DrugA"),
        ("evidence_level", .str "m1A"), ("priority", .str "1"),
        ("issued_date", .str "2020-01-01")]

/-- The second actionable record the C6 witness recommendation produces. -/
def ulmTwoMedRecOutB : JVal :=
  .obj [("variant_ids", .arr []), ("therapy", .str "DrugB"),
        ("evidence_level", .str "m1A"), ("priority", .str "1"),
        ("issued_date", .str "2020-01-01")]

/-- Is the value the literal sentinel string "No NGS data"? -/
def isNoNgsStr : JVal → Bool
  | .str s => s == "No NGS data"
  | _ => false

/-- Does the named section exist, is it a non-empty object, and does every
one of its fields hold the "No NGS data" sentinel? -/
def sectionAllNoNgs (doc : JVal) (sec : String) : Bool :=
  match getField doc sec with
  | some (.obj gfs) => !gfs.isEmpty && gfs.all fun p => isNoNgsStr p.2
  | _ => false

/-- Concrete Freiburg document without NGS reports, for the C4 witness. -/
def frbNoNgsSample : JVal :=
  .obj [("data", .obj [
    ("patient", .obj [("id", .str "P7")]),
    ("diagnoses", .arr [.obj [("icd10", .obj [("display", .str "C34")])]])])]

/-- The spec's per-field test: the field is a key of the section object and
its value is not null (the sentinel string "Not specified" counts). -/
def checklistPresent (gfs : List (String × JVal)) (f : String) : Bool :=
  match gfs.lookup f with
  | some v => !v.isNull
  | none => false

/-- The checklist fields that fail the presence test, in checklist order. -/
def checklistMissing (gfs : List (String × JVal)) (fields : List String) : List String :=
  fields.filter fun f => !checklistPresent gfs f

/-- A section is complete when every checklist field passes the presence
test. -/
def checklistComplete (gfs : List (String × JVal)) (fields : List String) : Bool :=
  fields.all fun f => checklistPresent gfs f

/-- Normalized document whose `qc_metrics` section lacks only the
`qc_status` key, for the C5 witness. -/
def qcStatusMissingDoc : JVal :=
  .obj [
    ("patient_info", .obj [
      ("patient_id", .str "P1"), ("sample_id", .str "S1"),
      ("sample_type", .str "FFPE"), ("tumor_type", .str "C34"),
      ("collection_date", .str "2020-01-01"), ("clinical_stage", .str "II")]),
    ("sequencing", .obj [
      ("platform", .str "NextSeq"), ("kit_manufacturer", .str "X"),
      ("kit_type", .str "Y"), ("gene_panel", .str "Z"),
      ("coverage_depth", .str "Not specified")]),
    ("pipeline", .obj [
      ("software", .str "p"), ("version", .str ""),
      ("reference_genome", .str "GRCh38"), ("variant_caller", .str "Not specified"),
      ("filter_criteria", .str "Not specified")]),
    ("qc_metrics", .obj [
      ("total_reads", .str "Not specified"), ("mapped_reads_pct", .str "Not specified"),
      ("mean_coverage", .str "Not specified"), ("targets_min_depth_pct", .str "Not specified"),
      ("tumor_purity", .str "Not specified")]),
    ("snv_indel", .arr []), ("cnv", .arr []), ("fusion_sv", .arr [])]

/-- Three input documents for the C7 witness: A and C carry one CNV row
each, B carries none. -/
def cnvDocA : JVal :=
  .obj [("patient_info", .obj [("patient_id", .str "A")]),
        ("cnv", .arr [.obj [("genes", .str "EGFR")]])]

/-- See `cnvDocA`. -/
def cnvDocB : JVal :=
  .obj [("patient_info", .obj [("patient_id", .str "B")])]

/-- See `cnvDocA`. -/
def cnvDocC : JVal :=
  .obj [("patient_info", .obj [("patient_id", .str "C")]),
        ("cnv", .arr [.obj [("genes", .str "MET")]])]

/-- The CNV row extracted from `cnvDocA`. -/
def cnvRowA : List (String × JVal) := [("patient_id", .str "A"), ("genes", .str "EGFR")]

/-- The CNV row extracted from `cnvDocC`. -/
def cnvRowC : List (String × JVal) := [("patient_id", .str "C"), ("genes", .str "MET")]

/-! ### Lemmas and claim theorems -/

theorem Py.bind_eq_some {α β : Type} {x : Py α} {f : α → Py β} {b : β} :
    x >>= f = some b ↔ ∃ a, x = some a ∧ f a = some b := by
  show Py.bindImpl x f = some b ↔ _
  cases x with
  | none => simp [Py.bindImpl]
  | some a =>
    show f a = some b ↔ _
    constructor
    · intro h
      exact ⟨a, rfl, h⟩
    · rintro ⟨a1, ha, h⟩
      injection ha with ha
      subst ha
      exact h

theorem Py.pure_eq_some {α : Type} (a : α) : (pure a : Py α) = some a := rfl

theorem Py.bind_some {α β : Type} (a : α) (f : α → Py β) :
    @Bind.bind Py Monad.toBind α β (some a) f = f a := rfl

theorem Py.some_inj {α : Type} {a b : α} :
    (some a : Py α) = some b ↔ a = b := by
  constructor
  · intro h
    injection h
  · intro h
    rw [h]

theorem pyGet_obj (fs : List (String × JVal)) (k : String) (d : JVal) :
    pyGet (.obj fs) k d = some ((fs.lookup k).getD d) := rfl

/-- When the stored value is a non-empty list, the `d.get(k, [{}])[0]` idiom
yields its first element. -/
theorem firstOrEmpty_cons (fs : List (String × JVal)) (k : String) (x : JVal)
    (r : List JVal) (h : fs.lookup k = some (.arr (x :: r))) :
    firstOrEmpty (.obj fs) k = some x := by
  unfold firstOrEmpty
  rw [pyGet_obj, h]
  rfl

/-- When the key is absent, the `d.get(k, [{}])[0]` idiom yields an empty
dict. -/
theorem firstOrEmpty_absent (fs : List (String × JVal)) (k : String)
    (h : fs.lookup k = none) :
    firstOrEmpty (.obj fs) k = some (.obj []) := by
  unfold firstOrEmpty
  rw [pyGet_obj, h]
  rfl

/-- When the stored value is an empty list, the `d.get(k, [{}])[0]` idiom
raises `IndexError`. -/
theorem firstOrEmpty_nil (fs : List (String × JVal)) (k : String)
    (h : fs.lookup k = some (.arr [])) :
    firstOrEmpty (.obj fs) k = none := by
  unfold firstOrEmpty
  rw [pyGet_obj, h]
  rfl

/-- A successful loop produces one output per input element. -/
theorem pyMap_length {α β : Type} (f : α → Py β) :
    ∀ (xs : List α) (ys : List β), pyMap f xs = some ys → ys.length = xs.length := by
  intro xs
  induction xs with
  | nil =>
    intro ys h
    unfold pyMap at h
    rw [Py.pure_eq_some, Py.some_inj] at h
    subst h
    rfl
  | cons x xs ih =>
    intro ys h
    unfold pyMap at h
    simp only [Py.bind_eq_some, Py.pure_eq_some, Py.some_inj] at h
    obtain ⟨y, -, ys2, hys, h⟩ := h
    injection h with h
    subst h
    simp only [List.length_cons, ih ys2 hys]

theorem pyIn_obj (fs : List (String × JVal)) (k : String) :
    pyIn k (.obj fs) = some ((fs.lookup k).isSome) := rfl

/-- C1: every Normalized Document produced by either mapper has every
target-schema section present as a key, and within the four required
sections every checklist field present as a key. -/
theorem C1_required_keys_always_present :
    (∀ data out, convert_ulm_format data = some out → requiredKeysPresent out = true) ∧
    (∀ data out, convert_freiburg_format data = some out → requiredKeysPresent out = true) := by
  constructor
  · intro data out h
    unfold convert_ulm_format at h
    simp only [Py.bind_eq_some, Py.pure_eq_some, Py.some_inj] at h
    repeat obtain ⟨_, -, h⟩ := h
    rfl
  · intro data out h
    unfold convert_freiburg_format at h
    simp only [Py.bind_eq_some, Py.pure_eq_some, Py.some_inj] at h
    repeat obtain ⟨_, -, h⟩ := h
    split at h
    · unfold frbNoNgs at h
      simp only [Py.bind_eq_some, Py.pure_eq_some, Py.some_inj] at h
      repeat obtain ⟨_, -, h⟩ := h
      rfl
    · unfold frbWithNgs at h
      simp only [Py.bind_eq_some, Py.pure_eq_some, Py.some_inj] at h
      repeat obtain ⟨_, -, h⟩ := h
      rfl

/-- C1 witness: both mappers applied to the empty JSON object. -/
theorem C1_required_keys_always_present_witness :
    requiredKeysPresent ((convert_ulm_format (JVal.obj [])).getD .null) = true ∧
    requiredKeysPresent ((convert_freiburg_format (JVal.obj [])).getD .null) = true :=
  ⟨C1_required_keys_always_present.1 (JVal.obj []) _ rfl,
   C1_required_keys_always_present.2 (JVal.obj []) _ rfl⟩

/-- C2 counterexample: on the JSON object with a numeric `data` member the
detector raises (`'ngsReports' in 5` is a `TypeError`) instead of
returning one of the three classifications. -/
theorem C2_counterexample :
    detect_format (.obj [("data", .num 5)]) = none := rfl

/-- C2 (amended): on objects whose `data` member, when present, is itself
an object, `detect_format` returns exactly the spec's three-way decision,
in the spec's order. -/
theorem C2_detect_format_follows_spec_rule (fs : List (String × JVal))
    (h : fs.lookup "data" = none ∨ ∃ ds, fs.lookup "data" = some (.obj ds)) :
    detect_format (.obj fs) = some (detectSpecRule fs) := by
  unfold detect_format detectSpecRule
  rcases h with h | ⟨ds, h⟩
  · simp only [pyIn_obj, h, Option.isSome_none, Py.bind_some]
    cases hn : (fs.lookup "ngsReports").isSome <;> simp [hn, Py.bind_some]
  · simp only [pyIn_obj, h, Option.isSome_some, Py.bind_some, pyGet_obj, Option.getD_some]
    cases hd : (ds.lookup "ngsReports").isSome <;>
      cases hn : (fs.lookup "ngsReports").isSome <;>
        simp [hd, hn, pyIn_obj, Py.bind_some]

/-- C2 witness: a concrete Freiburg-shaped object. -/
theorem C2_detect_format_follows_spec_rule_witness :
    detect_format (.obj [("data", .obj [("ngsReports", .arr [])])]) =
      some (detectSpecRule [("data", .obj [("ngsReports", .arr [])])]) ∧
    detectSpecRule [("data", .obj [("ngsReports", .arr [])])] = "freiburg" :=
  ⟨C2_detect_format_follows_spec_rule _ (Or.inr ⟨_, rfl⟩), rfl⟩

/-- C10: an Ulm-shaped input in which `specimens` is present but an empty
list makes `convert_ulm_format` raise (`[][0]` is an `IndexError`), and so
do empty `diagnoses`, `ngsReports` and `metadata` lists — in contrast with
absent keys, which are replaced by an empty dict and succeed. -/
theorem C10_empty_list_raises_absent_key_does_not :
    detect_format (.obj [("ngsReports", .arr [.obj []]), ("specimens", .arr [])]) = some "ulm" ∧
    convert_ulm_format (.obj [("ngsReports", .arr [.obj []]), ("specimens", .arr [])]) = none ∧
    convert_ulm_format (.obj [("ngsReports", .arr [.obj []]), ("diagnoses", .arr [])]) = none ∧
    convert_ulm_format (.obj [("ngsReports", .arr [])]) = none ∧
    convert_ulm_format (.obj [("ngsReports", .arr [.obj [("metadata", .arr [])]])]) = none ∧
    Option.isSome (convert_ulm_format (JVal.obj [("ngsReports", .arr [.obj []])])) = true :=
  ⟨rfl, rfl, rfl, rfl, rfl, rfl⟩

/-- C9: the Ulm mapper's `d.get(k, [{}])[0]` extraction reads exactly the
first element of a present list, substitutes an empty dict for an absent
key, and a document with all four lists absent still converts; the
specimen-derived output is read from the first specimen element. -/
theorem C9_first_element_or_empty_policy :
    (∀ fs k x r, fs.lookup k = some (.arr (x :: r)) →
      firstOrEmpty (.obj fs) k = some x) ∧
    (∀ fs k, fs.lookup k = none →
      firstOrEmpty (.obj fs) k = some (.obj [])) ∧
    (∀ fs sfs rest out,
      fs.lookup "specimens" = some (.arr (.obj sfs :: rest)) →
      convert_ulm_format (.obj fs) = some out →
      getPath out ["patient_info", "sample_id"] =
        some ((sfs.lookup "id").getD (.str ""))) ∧
    Option.isSome (convert_ulm_format (JVal.obj [])) = true := by
  refine ⟨firstOrEmpty_cons, firstOrEmpty_absent, ?_, rfl⟩
  intro fs sfs rest out h hc
  unfold convert_ulm_format at hc
  rw [firstOrEmpty_cons fs "specimens" _ _ h] at hc
  simp only [Py.bind_some, pyGet_obj, Py.bind_eq_some, Py.pure_eq_some, Py.some_inj] at hc
  repeat obtain ⟨_, -, hc⟩ := hc
  rfl

/-- C9 witness: first-element extraction, absent-key default, and the
sample id of the first of two specimens. -/
theorem C9_first_element_or_empty_policy_witness :
    firstOrEmpty (.obj [("specimens", .arr [.str "a", .str "b"])]) "specimens" = some (.str "a") ∧
    firstOrEmpty (.obj [("x", .null)]) "specimens" = some (.obj []) ∧
    getPath ((convert_ulm_format ulmTwoSpecimens).getD .null) ["patient_info", "sample_id"] =
      some (.str "S1") :=
  ⟨C9_first_element_or_empty_policy.1 _ "specimens" _ _ rfl,
   C9_first_element_or_empty_policy.2.1 _ "specimens" rfl,
   C9_first_element_or_empty_policy.2.2.1
     [("ngsReports", .arr [.obj []]),
      ("specimens", .arr [.obj [("id", .str "S1")], .obj [("id", .str "S2")]])]
     [("id", .str "S1")] [.obj [("id", .str "S2")]] _ rfl rfl⟩

/-- C3: per source variant record, the Ulm mapper stores `vaf` as the
source `allelicFrequency` divided by 100, while the Freiburg mapper stores
the source value unchanged — the two mappers differ exactly by the /100
conversion. -/
theorem C3_vaf_normalization :
    (∀ vfs q out, vfs.lookup "allelicFrequency" = some (.num q) →
      ulmVariant (.obj vfs) = some out →
      getField out "vaf" = some (.num (q / 100))) ∧
    (∀ vfs v out, vfs.lookup "allelicFrequency" = some v →
      frbVariant (.obj vfs) = some out →
      getField out "vaf" = some v) := by
  constructor
  · intro vfs q out h hc
    unfold ulmVariant at hc
    simp only [pyGet_obj, Py.bind_some, h, Option.getD_some, pyDiv100,
      Py.bind_eq_some, Py.pure_eq_some, Py.some_inj] at hc
    repeat obtain ⟨_, -, hc⟩ := hc
    rfl
  · intro vfs v out h hc
    unfold frbVariant at hc
    simp only [pyGet_obj, Py.bind_some, h, Option.getD_some,
      Py.bind_eq_some, Py.pure_eq_some, Py.some_inj] at hc
    repeat obtain ⟨_, -, hc⟩ := hc
    rfl

/-- C3 witness: an Ulm variant with `allelicFrequency = 45` maps to
`vaf = 45/100`; a Freiburg variant with `allelicFrequency = 45/100` maps to
`vaf = 45/100` unchanged. -/
theorem C3_vaf_normalization_witness :
    getField ((ulmVariant (.obj [("allelicFrequency", .num 45)])).getD .null) "vaf" =
      some (.num (45 / 100)) ∧
    getField ((frbVariant (.obj [("allelicFrequency", .num (45 / 100))])).getD .null) "vaf" =
      some (.num (45 / 100)) :=
  ⟨C3_vaf_normalization.1 [("allelicFrequency", .num 45)] 45 _ rfl rfl,
   C3_vaf_normalization.2 [("allelicFrequency", .num (45 / 100))] (.num (45 / 100)) _ rfl rfl⟩

/-- C8 counterexample: on the source identifier "HGNC:HGNC:1100" the code
removes every occurrence of "HGNC:" (Python `str.replace` replaces all,
not just a leading one), producing "1100", while the claimed rule would
strip one leading "HGNC:" and produce "HGNC:1100". -/
theorem C8_counterexample :
    getField ((ulmVariant (.obj [("gene",
        .obj [("hgncId", .str "HGNC:HGNC:1100")])])).getD .null) "gene" =
      some (.str "1100") ∧
    specStripHgnc "HGNC:HGNC:1100" = "HGNC:1100" ∧
    ("1100" : String) ≠ "HGNC:1100" :=
  ⟨rfl, rfl, by decide⟩

/-- C8 (amended): the mapped `gene` field equals the source `hgncId` string
with every occurrence of the substring "HGNC:" removed, left to right; in
particular "HGNC:1100" maps to "1100". -/
theorem C8_gene_removes_hgnc_occurrences :
    (∀ vfs gfs s out,
      vfs.lookup "gene" = some (.obj gfs) →
      gfs.lookup "hgncId" = some (.str s) →
      ulmVariant (.obj vfs) = some out →
      getField out "gene" = some (.str (pyReplace s "HGNC:" ""))) ∧
    pyReplace "HGNC:1100" "HGNC:" "" = "1100" := by
  refine ⟨?_, rfl⟩
  intro vfs gfs s out h1 h2 hc
  unfold ulmVariant at hc
  simp only [pyGet_obj, Py.bind_some, h1, h2, Option.getD_some, pyReplaceField,
    Py.bind_eq_some, Py.pure_eq_some, Py.some_inj] at hc
  repeat obtain ⟨_, -, hc⟩ := hc
  rfl

/-- C8 witness: the spec's own example, `hgncId = "HGNC:1100"` maps to
`gene = "1100"`. -/
theorem C8_gene_removes_hgnc_occurrences_witness :
    getField ((ulmVariant (.obj [("gene",
        .obj [("hgncId", .str "HGNC:1100")])])).getD .null) "gene" =
      some (.str "1100") :=
  C8_gene_removes_hgnc_occurrences.1
    [("gene", .obj [("hgncId", .str "HGNC:1100")])] [("hgncId", .str "HGNC:1100")]
    "HGNC:1100" _ rfl rfl rfl

/-- Elements produced by a successful loop all come from successful body
runs. -/
theorem pyMap_forall_mem {α β : Type} (f : α → Py β) (P : β → Prop)
    (hf : ∀ x y, f x = some y → P y) :
    ∀ (xs : List α) (ys : List β), pyMap f xs = some ys → ∀ y ∈ ys, P y := by
  intro xs
  induction xs with
  | nil =>
    intro ys h y hy
    unfold pyMap at h
    rw [Py.pure_eq_some, Py.some_inj] at h
    subst h
    cases hy
  | cons x xs ih =>
    intro ys h y hy
    unfold pyMap at h
    simp only [Py.bind_eq_some, Py.pure_eq_some, Py.some_inj] at h
    obtain ⟨y0, hy0, ys2, hys, h⟩ := h
    injection h with h
    subst h
    cases hy with
    | head => exact hf x y hy0
    | tail _ hmem => exact ih ys2 hys y hmem

/-- Every actionable record built from one recommendation carries the
recommendation's own evidence grading, priority and issue date. -/
theorem ulmActionable_fields (rfs : List (String × JVal)) (med ev a : JVal)
    (hev : ulmEvidence (.obj rfs) = some ev)
    (h : ulmActionable (.obj rfs) med = some a) :
    getField a "evidence_level" = some ev ∧
    getField a "priority" = some ((rfs.lookup "priority").getD (.str "")) ∧
    getField a "issued_date" = some ((rfs.lookup "issuedOn").getD (.str "")) := by
  unfold ulmActionable at h
  simp only [pyGet_obj, Py.bind_some, hev, Py.bind_eq_some, Py.pure_eq_some,
    Py.some_inj] at h
  repeat obtain ⟨_, -, h⟩ := h
  exact ⟨rfl, rfl, rfl⟩

/-- C6: the Ulm mapper's `actionable_mutations` list is the concatenation,
in recommendation order, of per-recommendation lists; each recommendation
contributes exactly one record per medication, in medication order, and all
its records share the recommendation's evidence level, priority and issue
date. -/
theorem C6_therapy_cross_product :
    (∀ fs rs pieces out,
      fs.lookup "recommendations" = some (.arr rs) →
      pyMap ulmRecActionables rs = some pieces →
      convert_ulm_format (.obj fs) = some out →
      getPath out ["clinical_interpretation", "actionable_mutations"] =
        some (.arr pieces.flatten)) ∧
    (∀ rfs ms ev as,
      rfs.lookup "medication" = some (.arr ms) →
      ulmEvidence (.obj rfs) = some ev →
      ulmRecActionables (.obj rfs) = some as →
      as.length = ms.length ∧
      ∀ a ∈ as,
        getField a "evidence_level" = some ev ∧
        getField a "priority" = some ((rfs.lookup "priority").getD (.str "")) ∧
        getField a "issued_date" = some ((rfs.lookup "issuedOn").getD (.str ""))) := by
  constructor
  · intro fs rs pieces out h1 h2 hc
    unfold convert_ulm_format at hc
    simp only [Py.bind_eq_some, Py.pure_eq_some, Py.some_inj] at hc
    obtain ⟨_,-,_,-,_,-,_,-,_,-,_,-,_,-,_,-,_,-,_,-,_,-,_,-,_,-,_,-,_,-,_,-,_,-,
      _,-,_,-,_,-,_,-,_,-,_,-,_,-,_,-,_,-,_,-,_,-,_,-,
      recsV, hrecsV, recs, hrecs, actLists, hact, hout⟩ := hc
    rw [pyGet_obj, h1, Option.getD_some, Py.some_inj] at hrecsV
    subst hrecsV
    rw [show pyIter (JVal.arr rs) = some rs from rfl, Py.some_inj] at hrecs
    subst hrecs
    rw [h2, Py.some_inj] at hact
    subst hact
    injection hout with hout
    subst hout
    rfl
  · intro rfs ms ev as h1 hev h3
    unfold ulmRecActionables at h3
    simp only [pyGet_obj, Py.bind_some, h1, Option.getD_some, pyIter] at h3
    exact ⟨pyMap_length _ ms as h3,
      pyMap_forall_mem (ulmActionable (.obj rfs)) _
        (fun med a hma => ulmActionable_fields rfs med ev a hev hma) ms as h3⟩

/-- C6 witness: one recommendation with 2 medications yields exactly the 2
records `ulmTwoMedRecOutA`/`ulmTwoMedRecOutB`, both carrying the shared
priority and issue date, and a document with that single recommendation
exposes their concatenation. -/
theorem C6_therapy_cross_product_witness :
    [ulmTwoMedRecOutA, ulmTwoMedRecOutB].length = 2 ∧
    getField ulmTwoMedRecOutA "priority" = some (.str "1") ∧
    getField ulmTwoMedRecOutB "priority" = some (.str "1") ∧
    getField ulmTwoMedRecOutA "issued_date" = some (.str "2020-01-01") ∧
    getField ulmTwoMedRecOutB "issued_date" = some (.str "2020-01-01") ∧
    getPath ((convert_ulm_format (.obj [("recommendations", .arr [ulmTwoMedRec])])).getD .null)
        ["clinical_interpretation", "actionable_mutations"] =
      some (.arr [ulmTwoMedRecOutA, ulmTwoMedRecOutB]) := by
  have H := C6_therapy_cross_product.2
    [("medication", .arr [.obj [("display", .str "DrugA")],
                          .obj [("display", .str "DrugB")]]),
     ("priority", .str "1"),
     ("issuedOn", .str "2020-01-01"),
     ("levelOfEvidence", .obj [("grading", .obj [("code", .str "m1A")])])]
    [.obj [("display", .str "DrugA")], .obj [("display", .str "DrugB")]]
    (.str "m1A") [ulmTwoMedRecOutA, ulmTwoMedRecOutB] rfl rfl rfl
  have H0 := H.2 ulmTwoMedRecOutA (List.mem_cons_self _ _)
  have H1 := H.2 ulmTwoMedRecOutB (List.mem_cons_of_mem _ (List.mem_cons_self _ _))
  exact ⟨H.1, H0.2.1, H1.2.1, H0.2.2, H1.2.2,
    C6_therapy_cross_product.1 [("recommendations", .arr [ulmTwoMedRec])]
      [ulmTwoMedRec] [[ulmTwoMedRecOutA, ulmTwoMedRecOutB]]
      ((convert_ulm_format (.obj [("recommendations", .arr [ulmTwoMedRec])])).getD .null)
      rfl rfl rfl⟩

/-- C4 counterexample: in the no-NGS-reports output the biomarker
`msi_status` is the sentinel string "No NGS data", not null, so "the
biomarker values are null" fails as stated. -/
theorem C4_counterexample :
    getPath ((convert_freiburg_format (.obj [("data", .obj [])])).getD .null)
      ["additional_biomarkers", "msi_status"] = some (.str "No NGS data") ∧
    JVal.str "No NGS data" ≠ JVal.null := by
  refine ⟨rfl, ?_⟩
  intro h
  exact JVal.noConfusion h

/-- C4 (amended): with zero NGS reports (the `ngsReports` key absent or an
empty list), every sequencing/pipeline/qc field is the "No NGS data"
sentinel, the three event lists are empty, the `tmb` biomarker is null
while `msi_status` carries the "No NGS data" sentinel, and `patient_info`
keeps the source patient id (never a sentinel) while its specimen-derived
fields are empty strings. -/
theorem C4_no_ngs_sentinel_document (fs ifs pfs : List (String × JVal)) (out : JVal)
    (hd : fs.lookup "data" = some (.obj ifs))
    (hp : ifs.lookup "patient" = some (.obj pfs))
    (hn : ifs.lookup "ngsReports" = none ∨ ifs.lookup "ngsReports" = some (.arr []))
    (hc : convert_freiburg_format (.obj fs) = some out) :
    sectionAllNoNgs out "sequencing" = true ∧
    sectionAllNoNgs out "pipeline" = true ∧
    sectionAllNoNgs out "qc_metrics" = true ∧
    getField out "snv_indel" = some (.arr []) ∧
    getField out "cnv" = some (.arr []) ∧
    getField out "fusion_sv" = some (.arr []) ∧
    getPath out ["additional_biomarkers", "tmb"] = some .null ∧
    getPath out ["additional_biomarkers", "msi_status"] = some (.str "No NGS data") ∧
    getPath out ["patient_info", "patient_id"] =
      some ((pfs.lookup "id").getD (.str "unknown")) ∧
    getPath out ["patient_info", "sample_id"] = some (.str "") ∧
    getPath out ["patient_info", "sample_type"] = some (.str "") ∧
    getPath out ["patient_info", "collection_date"] = some (.str "") := by
  unfold convert_freiburg_format at hc
  simp only [Py.bind_eq_some, Py.pure_eq_some, Py.some_inj] at hc
  obtain ⟨inner, hinner, pobj, hpobj, pid, hpid, _, -, _, -, _, -, diag, -,
    ngsr, hngsr, hc⟩ := hc
  rw [pyGet_obj, hd, Option.getD_some, Py.some_inj] at hinner
  subst hinner
  rw [pyGet_obj, hp, Option.getD_some, Py.some_inj] at hpobj
  subst hpobj
  rw [pyGet_obj, Py.some_inj] at hpid
  subst hpid
  rcases hn with hn | hn
  · rw [pyGet_obj, hn, Option.getD_none, Py.some_inj] at hngsr
    subst hngsr
    have hcond : (!pyTruthy (JVal.arr [])) = true := rfl
    rw [if_pos hcond] at hc
    unfold frbNoNgs at hc
    simp only [Py.bind_eq_some, Py.pure_eq_some, Py.some_inj] at hc
    obtain ⟨_, -, _, -, hc⟩ := hc
    injection hc with hc
    subst hc
    exact ⟨rfl, rfl, rfl, rfl, rfl, rfl, rfl, rfl, rfl, rfl, rfl, rfl⟩
  · rw [pyGet_obj, hn, Option.getD_some, Py.some_inj] at hngsr
    subst hngsr
    have hcond : (!pyTruthy (JVal.arr [])) = true := rfl
    rw [if_pos hcond] at hc
    unfold frbNoNgs at hc
    simp only [Py.bind_eq_some, Py.pure_eq_some, Py.some_inj] at hc
    obtain ⟨_, -, _, -, hc⟩ := hc
    injection hc with hc
    subst hc
    exact ⟨rfl, rfl, rfl, rfl, rfl, rfl, rfl, rfl, rfl, rfl, rfl, rfl⟩

/-- C4 witness: the amended statement at a concrete document. -/
theorem C4_no_ngs_sentinel_document_witness :
    sectionAllNoNgs ((convert_freiburg_format frbNoNgsSample).getD .null) "sequencing" = true ∧
    getPath ((convert_freiburg_format frbNoNgsSample).getD .null)
      ["additional_biomarkers", "msi_status"] = some (.str "No NGS data") ∧
    getPath ((convert_freiburg_format frbNoNgsSample).getD .null)
      ["patient_info", "patient_id"] = some (.str "P7") := by
  have H := C4_no_ngs_sentinel_document
    [("data", .obj [
      ("patient", .obj [("id", .str "P7")]),
      ("diagnoses", .arr [.obj [("icd10", .obj [("display", .str "C34")])]])])]
    [("patient", .obj [("id", .str "P7")]),
     ("diagnoses", .arr [.obj [("icd10", .obj [("display", .str "C34")])]])]
    [("id", .str "P7")]
    ((convert_freiburg_format frbNoNgsSample).getD .null)
    rfl rfl (Or.inl rfl) rfl
  exact ⟨H.1, H.2.2.2.2.2.2.2.1, H.2.2.2.2.2.2.2.2.1⟩

theorem fieldPresent_obj (gfs : List (String × JVal)) (f : String) :
    fieldPresent (.obj gfs) f = some (checklistPresent gfs f) := by
  unfold fieldPresent checklistPresent
  rw [pyIn_obj]
  cases h : gfs.lookup f <;>
    simp [h, Py.bind_some, pySubscript, Py.pure_eq_some]

theorem missingFields_obj (gfs : List (String × JVal)) :
    ∀ fields, missingFields (.obj gfs) fields = some (checklistMissing gfs fields) := by
  intro fields
  induction fields with
  | nil => rfl
  | cons f rest ih =>
    unfold missingFields
    simp only [fieldPresent_obj, Py.bind_some, ih]
    unfold checklistMissing
    cases hp : checklistPresent gfs f <;>
      simp [List.filter_cons, hp, Py.pure_eq_some, checklistMissing]

theorem validateSection_obj (fs : List (String × JVal)) (sec : String)
    (fields : List String) (gfs : List (String × JVal))
    (h : (fs.lookup sec).getD (.obj []) = .obj gfs) :
    validateSection (.obj fs) sec fields =
      some ((checklistMissing gfs fields).isEmpty, checklistMissing gfs fields) := by
  unfold validateSection
  simp only [pyGet_obj, h, Py.bind_some, missingFields_obj, Py.pure_eq_some]

theorem checklistComplete_eq (gfs : List (String × JVal)) :
    ∀ fields, checklistComplete gfs fields = (checklistMissing gfs fields).isEmpty := by
  intro fields
  induction fields with
  | nil => rfl
  | cons f rest ih =>
    unfold checklistComplete checklistMissing at ih ⊢
    cases hp : checklistPresent gfs f <;>
      simp [List.filter_cons, hp, ih]

/-- C5: the validator marks a required section complete exactly when every
field of its fixed checklist is present with a non-null value; the missing
list holds exactly the failing checklist fields in checklist order; and the
overall flag is the conjunction of the four per-section completeness
flags. -/
theorem C5_validator_checklist (fs p q r s : List (String × JVal))
    (hp : (fs.lookup "patient_info").getD (.obj []) = .obj p)
    (hq : (fs.lookup "sequencing").getD (.obj []) = .obj q)
    (hr : (fs.lookup "pipeline").getD (.obj []) = .obj r)
    (hs : (fs.lookup "qc_metrics").getD (.obj []) = .obj s)
    (counts : List Nat) (hg : genomicCounts (.obj fs) = some counts) :
    validate (.obj fs) = some (
      [("patient_info",
        checklistComplete p ["patient_id", "sample_id", "sample_type",
          "tumor_type", "collection_date", "clinical_stage"],
        checklistMissing p ["patient_id", "sample_id", "sample_type",
          "tumor_type", "collection_date", "clinical_stage"]),
       ("sequencing",
        checklistComplete q ["platform", "kit_manufacturer", "kit_type",
          "gene_panel", "coverage_depth"],
        checklistMissing q ["platform", "kit_manufacturer", "kit_type",
          "gene_panel", "coverage_depth"]),
       ("pipeline",
        checklistComplete r ["software", "version", "reference_genome",
          "variant_caller", "filter_criteria"],
        checklistMissing r ["software", "version", "reference_genome",
          "variant_caller", "filter_criteria"]),
       ("qc_metrics",
        checklistComplete s ["total_reads", "mapped_reads_pct", "mean_coverage",
          "targets_min_depth_pct", "tumor_purity", "qc_status"],
        checklistMissing s ["total_reads", "mapped_reads_pct", "mean_coverage",
          "targets_min_depth_pct", "tumor_purity", "qc_status"])],
      (checklistComplete p ["patient_id", "sample_id", "sample_type",
          "tumor_type", "collection_date", "clinical_stage"] &&
       checklistComplete q ["platform", "kit_manufacturer", "kit_type",
          "gene_panel", "coverage_depth"] &&
       checklistComplete r ["software", "version", "reference_genome",
          "variant_caller", "filter_criteria"] &&
       checklistComplete s ["total_reads", "mapped_reads_pct", "mean_coverage",
          "targets_min_depth_pct", "tumor_purity", "qc_status"])) := by
  unfold validate
  simp only [REQUIRED_FIELDS, pyMap,
    validateSection_obj fs "patient_info" _ p hp,
    validateSection_obj fs "sequencing" _ q hq,
    validateSection_obj fs "pipeline" _ r hr,
    validateSection_obj fs "qc_metrics" _ s hs,
    Py.bind_some, hg, Py.pure_eq_some, Py.some_inj,
    checklistComplete_eq, List.all, Bool.and_true, Bool.and_assoc]

/-- C5 witness: a `qc_metrics` section lacking only `qc_status` yields
`complete = false`, `missing = ["qc_status"]`, and overall INCOMPLETE,
while a section whose fields hold the "Not specified" sentinel is
complete. -/
theorem C5_validator_checklist_witness :
    validate qcStatusMissingDoc = some (
      [("patient_info", true, []),
       ("sequencing", true, []),
       ("pipeline", true, []),
       ("qc_metrics", false, ["qc_status"])],
      false) :=
  C5_validator_checklist
    [("patient_info", .obj [
      ("patient_id", .str "P1"), ("sample_id", .str "S1"),
      ("sample_type", .str "FFPE"), ("tumor_type", .str "C34"),
      ("collection_date", .str "2020-01-01"), ("clinical_stage", .str "II")]),
     ("sequencing", .obj [
      ("platform", .str "NextSeq"), ("kit_manufacturer", .str "X"),
      ("kit_type", .str "Y"), ("gene_panel", .str "Z"),
      ("coverage_depth", .str "Not specified")]),
     ("pipeline", .obj [
      ("software", .str "p"), ("version", .str ""),
      ("reference_genome", .str "GRCh38"), ("variant_caller", .str "Not specified"),
      ("filter_criteria", .str "Not specified")]),
     ("qc_metrics", .obj [
      ("total_reads", .str "Not specified"), ("mapped_reads_pct", .str "Not specified"),
      ("mean_coverage", .str "Not specified"), ("targets_min_depth_pct", .str "Not specified"),
      ("tumor_purity", .str "Not specified")]),
     ("snv_indel", .arr []), ("cnv", .arr []), ("fusion_sv", .arr [])]
    [("patient_id", .str "P1"), ("sample_id", .str "S1"),
     ("sample_type", .str "FFPE"), ("tumor_type", .str "C34"),
     ("collection_date", .str "2020-01-01"), ("clinical_stage", .str "II")]
    [("platform", .str "NextSeq"), ("kit_manufacturer", .str "X"),
     ("kit_type", .str "Y"), ("gene_panel", .str "Z"),
     ("coverage_depth", .str "Not specified")]
    [("software", .str "p"), ("version", .str ""),
     ("reference_genome", .str "GRCh38"), ("variant_caller", .str "Not specified"),
     ("filter_criteria", .str "Not specified")]
    [("total_reads", .str "Not specified"), ("mapped_reads_pct", .str "Not specified"),
     ("mean_coverage", .str "Not specified"), ("targets_min_depth_pct", .str "Not specified"),
     ("tumor_purity", .str "Not specified")]
    rfl rfl rfl rfl [0, 0, 0] rfl

theorem flatten_filter_not_isEmpty {α : Type} :
    ∀ xs : List (List α), (xs.filter fun t => !t.isEmpty).flatten = xs.flatten := by
  intro xs
  induction xs with
  | nil => rfl
  | cons t ts ih =>
    cases t with
    | nil => simp [List.filter_cons, ih]
    | cons a as => simp [List.filter_cons, ih]

theorem filter_not_isEmpty_isEmpty_iff {α : Type} :
    ∀ xs : List (List α),
      ((xs.filter fun t => !t.isEmpty).isEmpty = true ↔ xs.flatten = []) := by
  intro xs
  induction xs with
  | nil => simp
  | cons t ts ih =>
    cases t with
    | nil => simp [List.filter_cons, ih]
    | cons a as => simp [List.filter_cons]

/-- C7: each extracted CNV row is its own document's row with that
document's `patient_id` as leading column; the combined CNV table exists
exactly when some document contributed a row and then equals the
concatenation of the per-document tables in input order (empty tables
contribute nothing); and the combined patient-info table always has one
row per input document. -/
theorem C7_combined_cnv_aggregation :
    (∀ data pid rows,
      validatorPatientId data = some pid →
      extract_cnv data = some rows →
      ∀ row ∈ rows, ∃ rest, row = ("patient_id", pid) :: rest) ∧
    (∀ docs tables result,
      pyMap extract_cnv docs = some tables →
      combined_cnv docs = some result →
      ((result = none ↔ tables.flatten = []) ∧
       ∀ rows, result = some rows → rows = tables.flatten)) ∧
    (∀ docs rows,
      combined_patient_info docs = some rows →
      rows.length = docs.length) := by
  refine ⟨?_, ?_, ?_⟩
  · intro data pid rows h1 h2
    unfold extract_cnv at h2
    simp only [h1, Py.bind_some] at h2
    rw [Py.bind_eq_some] at h2
    obtain ⟨cnvv, -, h2⟩ := h2
    by_cases hc : (!pyTruthy cnvv) = true
    · rw [if_pos hc, Py.pure_eq_some, Py.some_inj] at h2
      subst h2
      intro row hrow
      cases hrow
    · rw [if_neg hc, Py.bind_eq_some] at h2
      obtain ⟨rws, -, h2⟩ := h2
      rw [Py.bind_eq_some] at h2
      obtain ⟨rfields, -, h2⟩ := h2
      rw [Py.pure_eq_some, Py.some_inj] at h2
      subst h2
      intro row hrow
      obtain ⟨fs2, -, hfs⟩ := List.mem_map.mp hrow
      exact ⟨fs2, hfs.symm⟩
  · intro docs tables result h1 h2
    unfold combined_cnv at h2
    simp only [h1, Py.bind_some, Py.pure_eq_some] at h2
    injection h2 with h2
    subst h2
    constructor
    · split
      · next hcond =>
        simp only [true_iff, (filter_not_isEmpty_isEmpty_iff tables).mp hcond]
      · next hcond =>
        constructor
        · intro hx
          exact absurd hx (by simp)
        · intro hx
          exact absurd ((filter_not_isEmpty_isEmpty_iff tables).mpr hx) hcond
    · intro rows hrows
      split at hrows
      · exact absurd hrows (by simp)
      · injection hrows with hrows
        subst hrows
        exact flatten_filter_not_isEmpty tables
  · intro docs rows h
    exact pyMap_length extract_patient_info docs rows h

/-- C7 witness: with documents A, B, C where only A and C have CNV entries,
the combined table is exactly A's row then C's row, each row led by its own
patient id; with CNV-free documents only, no table value is produced; the
patient-info table has one row per document. -/
theorem C7_combined_cnv_aggregation_witness :
    cnvRowA.head? = some ("patient_id", JVal.str "A") ∧
    [cnvRowA, cnvRowC] = [[cnvRowA], [], [cnvRowC]].flatten ∧
    ((none : Option (List (List (String × JVal)))) = none ↔
      ([[], []] : List (List (List (String × JVal)))).flatten = []) ∧
    ((combined_patient_info [cnvDocA, cnvDocB, cnvDocC]).getD []).length = 3 := by
  refine ⟨?_, ?_, ?_, ?_⟩
  · obtain ⟨rest, hr⟩ := C7_combined_cnv_aggregation.1 cnvDocA (.str "A") [cnvRowA]
      rfl rfl cnvRowA (List.mem_cons_self _ _)
    rw [hr]
    rfl
  · exact (C7_combined_cnv_aggregation.2.1 [cnvDocA, cnvDocB, cnvDocC]
      [[cnvRowA], [], [cnvRowC]] (some [cnvRowA, cnvRowC]) rfl rfl).2
      [cnvRowA, cnvRowC] rfl
  · exact (C7_combined_cnv_aggregation.2.1 [cnvDocB, cnvDocB] [[], []] none rfl rfl).1
  · exact C7_combined_cnv_aggregation.2.2 [cnvDocA, cnvDocB, cnvDocC]
      ((combined_patient_info [cnvDocA, cnvDocB, cnvDocC]).getD []) rfl
